import Mathlib

/-!
Verification development for the route fuel-optimization pipeline of the
`efficient_route_planner` repository.

The embedding below is a shallow translation of the Python sources:

* `applications/fuel_router/router_engine/fuel_optimizer.py`
  (`optimize_fuel_stops_with_detours`, constants `MAX_RANGE`, `MPG`),
* `applications/fuel_router/router_engine/utils.py` (`cumulative_distances`),
* `applications/fuel_router/router_engine/planner.py`
  (`project_stations_with_detours`, constant `MAX_DETOUR_MILES`),
* `applications/fuel_router/router_engine/processor.py`
  (`FuelStationRepository`, `RouteCacheService`, `RouteProcessorService`).

Python floats are modelled by exact rationals (`ℚ`); the code's epsilon
comparisons (`EPS = 1e-6`) are kept verbatim.  Great-circle distance
functions (`haversine_miles` and the vectorised arcsin variant), the md5
digest, and the pandas content hash call into external libraries and use
transcendental arithmetic, so they are passed as explicit function
parameters wherever a source function calls them; everything the
repository itself computes is embedded directly.
-/

deriving instance DecidableEq for Except

namespace RoutePlanner

/-- Tank capacity in range miles, `fuel_optimizer.py` line 1. -/
def MAX_RANGE : ℚ := 500

/-- Fuel economy (miles per gallon), `fuel_optimizer.py` line 2. -/
def MPG : ℚ := 10

/-- Numeric tolerance used by all fuel comparisons, `fuel_optimizer.py` line 10. -/
def EPS : ℚ := 1 / 1000000

/-- Maximum usable detour, `planner.py` line 7. -/
def MAX_DETOUR_MILES : ℚ := 10

/-- Round a rational to the nearest integer, ties to even — the semantics of
Python's built-in `round`. -/
def roundHalfEven (x : ℚ) : ℤ :=
  let f : ℤ := ⌊x⌋
  let frac : ℚ := x - f
  if frac < 1 / 2 then f
  else if 1 / 2 < frac then f + 1
  else if f % 2 = 0 then f else f + 1

/-- Python's `round(x, n)` on our rational model of floats. -/
def pyRound (n : ℕ) (x : ℚ) : ℚ :=
  (roundHalfEven (x * 10 ^ n) : ℚ) / 10 ^ n

/-- A projected station record as consumed by the optimizer: the fields of
the dictionaries produced by `project_stations_with_detours` that
`optimize_fuel_stops_with_detours` reads (`Lat`/`Lon` are carried along in
the source but never read by the optimizer and are omitted here). -/
structure Station where
  route_mile : ℚ
  price : ℚ
  name : String
  detour_miles : ℚ
  on_route : Bool
deriving DecidableEq, Repr

/-- A purchase event (`stop_info`, `fuel_optimizer.py` lines 106-112): the
station's fields spread in, plus rounded `gallons`/`cost`, the rounded
detour actually charged, and the buy reason. -/
structure Stop where
  route_mile : ℚ
  price : ℚ
  name : String
  on_route : Bool
  gallons : ℚ
  cost : ℚ
  detour_miles : ℚ
  buy_reason : String
deriving DecidableEq, Repr

/-- The mutable state of the optimizer loop (`fuel`, `pos`, `total_cost`,
`stops`), plus `trace`: a pure audit list recording every value taken by
the `fuel` variable (it influences nothing). -/
structure OptState where
  fuel : ℚ
  pos : ℚ
  total_cost : ℚ
  stops : List Stop
  trace : List ℚ
deriving DecidableEq, Repr

/-- Outcome of the lookahead `for`-loop over `stations[i+1:]`
(`fuel_optimizer.py` lines 57-84): `buy` is the `break` after choosing a
purchase, `noBuy` is a `break` with `gallons = 0` (range bound exceeded, or
a cheaper station requiring a negligible purchase), `exhausted` is the
`for`-`else` path. -/
inductive LookResult
  | buy (gallons : ℚ) (reason : String)
  | noBuy
  | exhausted
deriving DecidableEq, Repr

/-- The lookahead scan, `fuel_optimizer.py` lines 57-84, translated clause
by clause from the source. -/
def lookahead (pos fuel detour_needed price : ℚ) : List Station → LookResult
  | [] => .exhausted
  | n :: rest =>
    let distance_to_next_route := n.route_mile - pos
    let next_detour : ℚ := if n.on_route then 0 else n.detour_miles
    let total_distance_to_next := distance_to_next_route + next_detour
    if MAX_RANGE + EPS < total_distance_to_next then .noBuy
    else if n.price < price then
      let required_miles :=
        if 0 < detour_needed ∧ fuel < detour_needed + EPS then
          total_distance_to_next + detour_needed
        else total_distance_to_next
      let required_fuel := required_miles - fuel
      if EPS < required_fuel then
        .buy (required_fuel / MPG) ("to reach cheaper station at " ++ n.name)
      else .noBuy
    else lookahead pos fuel detour_needed price rest

/-- The `gallons`/`buy_reason` assignment of one loop iteration
(`fuel_optimizer.py` lines 47-48, 57-95) as a function of the lookahead
outcome: a `buy` break keeps its amount, a `noBuy` break leaves the
initial `(0, "")`, and the `for`-`else` path computes the top-off purchase
(lines 85-95). -/
def buyDecision (la : LookResult) (fuel detour_needed : ℚ) : ℚ × String :=
  match la with
  | .buy g r => (g, r)
  | .noBuy => (0, "")
  | .exhausted =>
    let max_useful_fuel : ℚ :=
      if 0 < detour_needed then MAX_RANGE - detour_needed else MAX_RANGE
    let required_fuel := max_useful_fuel - fuel
    if EPS < required_fuel then
      (required_fuel / MPG, "fill tank (no cheaper stations ahead)")
    else (0, "")

/-- One iteration of the optimizer `while` loop (`fuel_optimizer.py` lines
29-115) for the current `station`, with `rest` the stations after it
(`stations[i+1:]`, ending in the virtual destination). -/
def stepStation (st8 : OptState) (station : Station) (rest : List Station) :
    Except String OptState :=
  let dist_to_route_pos := station.route_mile - st8.pos
  let fuel1 := st8.fuel - dist_to_route_pos
  if fuel1 < -EPS then .error ("Out of fuel before reaching " ++ station.name)
  else
    let fuel2 := max 0 fuel1
    let detour_needed : ℚ := if station.on_route then 0 else station.detour_miles
    if fuel2 + EPS < detour_needed then
      -- cannot make the detour: skip this station without purchase
      .ok { st8 with fuel := fuel2, pos := station.route_mile,
                     trace := st8.trace ++ [fuel1] }
    else
      let la := lookahead station.route_mile fuel2 detour_needed station.price rest
      let decision : ℚ × String := buyDecision la fuel2 detour_needed
      let gallons := decision.1
      if EPS < gallons then
        let cost := gallons * station.price
        let fuel3 := if 0 < detour_needed then fuel2 - detour_needed else fuel2
        let pos2 := if 0 < detour_needed then station.route_mile + detour_needed
                    else station.route_mile
        let fuel4 := fuel3 + gallons * MPG
        let stop : Stop :=
          { route_mile := station.route_mile, price := station.price,
            name := station.name, on_route := station.on_route,
            gallons := pyRound 4 gallons, cost := pyRound 2 cost,
            detour_miles := pyRound 2 detour_needed, buy_reason := decision.2 }
        .ok { fuel := fuel4, pos := pos2, total_cost := st8.total_cost + cost,
              stops := st8.stops ++ [stop],
              trace := st8.trace ++ [fuel1, fuel3, fuel4] }
      else
        .ok { st8 with fuel := fuel2, pos := station.route_mile,
                       trace := st8.trace ++ [fuel1] }

/-- The optimizer `while i < len(stations) - 1` loop: the last element (the
virtual destination) is never processed as the current station. -/
def optLoop : OptState → List Station → Except String OptState
  | st8, [] => .ok st8
  | st8, [_] => .ok st8
  | st8, s :: rest =>
    match stepStation st8 s rest with
    | .error e => .error e
    | .ok st9 => optLoop st9 rest

/-- Sorting key used at `fuel_optimizer.py` line 11 (and `planner.py` line
131): nondecreasing `route_mile`. -/
def mileLe (a b : Station) : Prop := a.route_mile ≤ b.route_mile

instance : DecidableRel mileLe := fun a b =>
  inferInstanceAs (Decidable (a.route_mile ≤ b.route_mile))

instance : IsTotal Station mileLe := ⟨fun a b => le_total a.route_mile b.route_mile⟩

instance : IsTrans Station mileLe := ⟨fun _ _ _ h h' => le_trans h h'⟩

/-- Result of `optimize_fuel_stops_with_detours`: the stop list and the
rounded total cost (plus the audit trace of fuel levels). -/
structure OptResult where
  stops : List Stop
  total_cost : ℚ
  trace : List ℚ
deriving DecidableEq, Repr

/-- Shallow embedding of `optimize_fuel_stops_with_detours`
(`fuel_optimizer.py` lines 5-117): sort by `route_mile`, append the virtual
destination, run the greedy loop.  An uncaught Python `RuntimeError`
("Out of fuel ...") is an `Except.error`. -/
def optimize_fuel_stops_with_detours (total_distance : ℚ) (stations : List Station) :
    Except String OptResult :=
  let sorted := List.insertionSort mileLe stations
  let dest : Station :=
    { route_mile := total_distance, price := 0, name := "DESTINATION",
      detour_miles := 0, on_route := true }
  let all := sorted ++ [dest]
  match optLoop { fuel := MAX_RANGE, pos := 0, total_cost := 0, stops := [],
                  trace := [MAX_RANGE] } all with
  | .error e => .error e
  | .ok st8 =>
    .ok { stops := st8.stops, total_cost := pyRound 2 st8.total_cost,
          trace := st8.trace }

/-- C1: with total route distance 1000 and the single on-route station at
route mile 200 (`MAX_RANGE` = 500), the optimizer does NOT raise the
out-of-fuel error: it returns normally with an empty stop list and zero
cost, because the `while` loop never visits the virtual destination as the
current station, so fuel is never consumed past mile 200.  This evaluates
the code at the failing input of the claim (the spec and the repository's
own test `test_fill_tank_no_cheaper_ahead` both expect the out-of-fuel
error for this scenario). -/
theorem C1_infeasible_route_returns_empty :
    optimize_fuel_stops_with_detours 1000 [⟨200, 3.5, "Station A", 0, true⟩] =
      .ok ⟨[], 0, [500, 300]⟩ := by
  norm_num [optimize_fuel_stops_with_detours, optLoop, stepStation, buyDecision, lookahead,
    List.insertionSort, List.orderedInsert, mileLe, pyRound, roundHalfEven,
    max_def, MAX_RANGE, MPG, EPS]

/-- C6: the four-station scenario (miles 200/400/600/800, total 1000)
returns normally with a non-empty stop list, strictly positive total cost,
and no stop with `gallons ≤ 0` — the optimizer buys 30.3 gallons at
Station B and 20 gallons at Station D for a total of 169.02. -/
theorem C6_four_station_scenario :
    ∃ r : OptResult,
      optimize_fuel_stops_with_detours 1000
        [⟨200, 3.5, "Station A", 0, true⟩, ⟨400, 3.4, "Station B", 5, false⟩,
         ⟨600, 3.6, "Station C", 0, true⟩, ⟨800, 3.3, "Station D", 3, false⟩] = .ok r ∧
      r.stops ≠ [] ∧ 0 < r.total_cost ∧ ∀ stop ∈ r.stops, 0 < stop.gallons :=
  ⟨⟨[⟨400, 3.4, "Station B", false, 30.3, 103.02, 5,
      "to reach cheaper station at Station D"⟩,
     ⟨800, 3.3, "Station D", false, 20, 66, 3,
      "to reach cheaper station at DESTINATION"⟩],
    169.02, [500, 300, 100, 95, 398, 203, 3, 0, 200]⟩, by
    norm_num [optimize_fuel_stops_with_detours, optLoop, stepStation, buyDecision, lookahead,
      List.insertionSort, List.orderedInsert, mileLe, pyRound, roundHalfEven,
      max_def, MAX_RANGE, MPG, EPS]
    simp⟩

/-- C9: on an empty projected-station list the optimizer returns normally
with an empty stop list and total cost 0 for every total distance,
including distances beyond `MAX_RANGE`: the appended virtual destination is
the only list element and the `while i < len(stations) - 1` loop never
runs, so the out-of-fuel error cannot be raised. -/
theorem C9_empty_station_list (total : ℚ) :
    optimize_fuel_stops_with_detours total [] = .ok ⟨[], 0, [MAX_RANGE]⟩ := by
  have h : pyRound 2 0 = 0 := by norm_num [pyRound, roundHalfEven]
  simp [optimize_fuel_stops_with_detours, optLoop, List.insertionSort, h]

/-- C2 counterexample: two runs refute the claim as stated.  First run
(stations at miles 100 and 500.0001, total 600): the recorded purchase at
S1 has `gallons = 0.0` (the unrounded amount 1e-5 gallons exceeds the 1e-6
recording threshold but rounds to zero at 4 decimals), contradicting
"every PurchaseEvent has gallons > 0".  Second run (detour station at mile
492 plus on-route stations at 492.5 and 985, total 1000): the simulated
fuel level reaches 500.5 > `MAX_RANGE` (after paying the detour the
position moves past the next station, so "arriving" there adds the
distance back to the fuel level), contradicting "fuel never exceeds
MAX_RANGE". -/
theorem C2_counterexample :
    (optimize_fuel_stops_with_detours 600
        [⟨100, 8, "S1", 0, true⟩, ⟨5000001/10000, 7, "S2", 0, true⟩] =
      .ok ⟨[⟨100, 8, "S1", true, 0, 0, 0, "to reach cheaper station at S2"⟩,
            ⟨5000001/10000, 7, "S2", true, 10, 70, 0,
             "to reach cheaper station at DESTINATION"⟩],
           70, [500, 400, 400, 4000001/10000, 0, 0, 999999/10000]⟩) ∧
    (∃ stop ∈ [(⟨100, 8, "S1", true, 0, 0, 0,
                 "to reach cheaper station at S2"⟩ : Stop)], stop.gallons ≤ 0) ∧
    (optimize_fuel_stops_with_detours 1000
        [⟨492, 10, "A", 8, false⟩, ⟨985/2, 11, "B", 0, true⟩,
         ⟨985, 5, "C", 0, true⟩] =
      .ok ⟨[⟨492, 10, "A", false, 493/10, 493, 8, "to reach cheaper station at C"⟩,
            ⟨985, 5, "C", true, 7/10, 7/2, 0,
             "to reach cheaper station at DESTINATION"⟩],
           993/2, [500, 8, 0, 493, 1001/2, 8, 8, 15]⟩) ∧
    (∃ f ∈ [(500 : ℚ), 8, 0, 493, 1001/2, 8, 8, 15], MAX_RANGE < f) := by
  refine ⟨?_, ⟨_, List.mem_singleton_self _, by norm_num⟩, ?_,
      ⟨1001/2, by norm_num, by norm_num [MAX_RANGE]⟩⟩ <;>
    norm_num [optimize_fuel_stops_with_detours, optLoop, stepStation, buyDecision, lookahead,
      List.insertionSort, List.orderedInsert, mileLe, pyRound, roundHalfEven,
      max_def, MAX_RANGE, MPG, EPS] <;> simp

/-- C5 counterexample: single on-route station at mile 300, total distance
1000.  The only subsequent stop (the virtual destination) is 700 miles
away, beyond `MAX_RANGE + EPS`, so the lookahead stops with `break`
(result `noBuy`) instead of running to exhaustion; no purchase at all is
made at the station, although no strictly cheaper station lies within
`MAX_RANGE` of it — refuting the claim that in that situation the code
fills the tank with reason "fill tank (no cheaper stations ahead)". -/
theorem C5_counterexample :
    optimize_fuel_stops_with_detours 1000 [⟨300, 4, "Lone", 0, true⟩] =
      .ok ⟨[], 0, [500, 200]⟩ ∧
    lookahead 300 200 0 4 [⟨1000, 0, "DESTINATION", 0, true⟩] = .noBuy ∧
    MAX_RANGE + EPS < (1000 : ℚ) - 300 := by
  refine ⟨?_, ?_, by norm_num [MAX_RANGE, EPS]⟩ <;>
    norm_num [optimize_fuel_stops_with_detours, optLoop, stepStation, buyDecision, lookahead,
      List.insertionSort, List.orderedInsert, mileLe, pyRound, roundHalfEven,
      max_def, MAX_RANGE, MPG, EPS]



/-- Characterisation of a recorded purchase event: some exact purchase
amount `g` strictly above the recording threshold `EPS` produced the
rounded `gallons` and `cost` fields (`cost` is the 2-decimal rounding of
the unrounded gallons times the price). -/
def GoodStop (stop : Stop) : Prop :=
  ∃ g : ℚ, EPS < g ∧ stop.gallons = pyRound 4 g ∧
    stop.cost = pyRound 2 (g * stop.price) ∧ 0 ≤ stop.gallons

lemma roundHalfEven_nonneg (x : ℚ) (hx : 0 ≤ x) : 0 ≤ roundHalfEven x := by
  have h0 : (0 : ℤ) ≤ ⌊x⌋ := Int.floor_nonneg.mpr hx
  simp only [roundHalfEven]
  split_ifs <;> omega

lemma pyRound_nonneg (n : ℕ) (x : ℚ) (hx : 0 ≤ x) : 0 ≤ pyRound n x := by
  unfold pyRound
  refine div_nonneg ?_ (by positivity)
  exact_mod_cast roundHalfEven_nonneg _ (by positivity)

/-- If the lookahead breaks with a purchase, the purchased range is above
the threshold and bounded by the range-per-tank window: the purchase
raises the (pre-detour) fuel level to at most `MAX_RANGE + EPS`, plus the
current detour when the purchase pre-pays it. -/
lemma lookahead_buy_bound (l : List Station) (pos fuel detour price g : ℚ) (r : String)
    (h : lookahead pos fuel detour price l = .buy g r) :
    EPS < g * MPG ∧
    fuel + g * MPG ≤ MAX_RANGE + EPS +
      (if 0 < detour ∧ fuel < detour + EPS then detour else 0) := by
  have hMPG : (MPG : ℚ) ≠ 0 := by norm_num [MPG]
  induction l with
  | nil => simp [lookahead] at h
  | cons n rest ih =>
    simp only [lookahead] at h
    set nd : ℚ := if n.on_route = true then (0 : ℚ) else n.detour_miles with hnd
    by_cases hR : MAX_RANGE + EPS < n.route_mile - pos + nd
    · rw [if_pos hR] at h
      exact LookResult.noConfusion h
    rw [if_neg hR] at h
    push_neg at hR
    by_cases hP : n.price < price
    · rw [if_pos hP] at h
      by_cases hC : 0 < detour ∧ fuel < detour + EPS
      · rw [if_pos hC] at h
        by_cases hT : EPS < n.route_mile - pos + nd + detour - fuel
        · rw [if_pos hT] at h
          injection h with hg hr
          rw [← hg, div_mul_cancel₀ _ hMPG, if_pos hC]
          exact ⟨hT, by linarith⟩
        · rw [if_neg hT] at h
          exact LookResult.noConfusion h
      · rw [if_neg hC] at h
        by_cases hT : EPS < n.route_mile - pos + nd - fuel
        · rw [if_pos hT] at h
          injection h with hg hr
          rw [← hg, div_mul_cancel₀ _ hMPG, if_neg hC]
          exact ⟨hT, by linarith⟩
        · rw [if_neg hT] at h
          exact LookResult.noConfusion h
    · rw [if_neg hP] at h
      exact ih h

/-- The outcome of one loop iteration that makes no purchase: the state
advances to the station and records the arrival fuel level.  Covers the
skip, `noBuy` and below-threshold branches of `stepStation`. -/
lemma nobuy_state_spec (st8 : OptState) (s : Station) (prevMile : ℚ)
    (hpm : prevMile ≤ s.route_mile)
    (hJ : st8.fuel + st8.pos ≤ MAX_RANGE + EPS + prevMile + MAX_DETOUR_MILES)
    (h1 : -EPS ≤ st8.fuel - (s.route_mile - st8.pos)) :
    max 0 (st8.fuel - (s.route_mile - st8.pos)) + s.route_mile ≤
      MAX_RANGE + EPS + s.route_mile + MAX_DETOUR_MILES ∧
    (∀ stop ∈ st8.stops, stop ∈ st8.stops ∨ GoodStop stop) ∧
    (∀ f ∈ st8.trace ++ [st8.fuel - (s.route_mile - st8.pos)], f ∈ st8.trace ∨
      (-EPS ≤ f ∧ f ≤ MAX_RANGE + EPS + MAX_DETOUR_MILES)) := by
  have hBnd : st8.fuel - (s.route_mile - st8.pos) ≤
      MAX_RANGE + EPS + MAX_DETOUR_MILES := by linarith
  have hBnd0 : (0 : ℚ) ≤ MAX_RANGE + EPS + MAX_DETOUR_MILES := by
    norm_num [MAX_RANGE, EPS, MAX_DETOUR_MILES]
  refine ⟨by have := max_le hBnd0 hBnd; linarith, fun stop hs => .inl hs, ?_⟩
  intro f hf
  rcases List.mem_append.mp hf with hf | hf
  · exact .inl hf
  · rw [List.mem_singleton] at hf
    subst hf
    exact .inr ⟨h1, hBnd⟩

/-- One iteration of the optimizer loop preserves the range invariant and
produces only well-formed purchases and in-bounds fuel readings: if the
state's fuel-plus-position is within the tank window measured from the
previous station's mile, then after processing a station (whose detour is
between 0 and `MAX_DETOUR_MILES` and whose mile is past the previous one)
the window is re-established at this station's mile, every new stop is a
`GoodStop`, and every new trace entry lies in
`[-EPS, MAX_RANGE + EPS + MAX_DETOUR_MILES]`. -/
lemma stepStation_spec (st8 st9 : OptState) (s : Station) (rest : List Station)
    (prevMile : ℚ)
    (hd0 : 0 ≤ s.detour_miles) (hd1 : s.detour_miles ≤ MAX_DETOUR_MILES)
    (hpm : prevMile ≤ s.route_mile)
    (hJ : st8.fuel + st8.pos ≤ MAX_RANGE + EPS + prevMile + MAX_DETOUR_MILES)
    (hok : stepStation st8 s rest = .ok st9) :
    st9.fuel + st9.pos ≤ MAX_RANGE + EPS + s.route_mile + MAX_DETOUR_MILES ∧
    (∀ stop ∈ st9.stops, stop ∈ st8.stops ∨ GoodStop stop) ∧
    (∀ f ∈ st9.trace, f ∈ st8.trace ∨
      (-EPS ≤ f ∧ f ≤ MAX_RANGE + EPS + MAX_DETOUR_MILES)) := by
  have hE : (0 : ℚ) < EPS := by norm_num [EPS]
  have hD0 : (0 : ℚ) ≤ MAX_DETOUR_MILES := by norm_num [MAX_DETOUR_MILES]
  have hMPG : (MPG : ℚ) ≠ 0 := by norm_num [MPG]
  simp only [stepStation] at hok
  set f1 : ℚ := st8.fuel - (s.route_mile - st8.pos) with hf1def
  set dt : ℚ := if s.on_route = true then (0 : ℚ) else s.detour_miles with hdtdef
  have hdt0 : 0 ≤ dt := by rw [hdtdef]; split_ifs <;> [norm_num; exact hd0]
  have hdtD : dt ≤ MAX_DETOUR_MILES := by rw [hdtdef]; split_ifs <;> [exact hD0; exact hd1]
  by_cases h1 : f1 < -EPS
  · rw [if_pos h1] at hok
    exact Except.noConfusion hok
  rw [if_neg h1] at hok
  push_neg at h1
  have hf1B : f1 ≤ MAX_RANGE + EPS + MAX_DETOUR_MILES := by
    rw [hf1def]; linarith
  have hBnd0 : (0 : ℚ) ≤ MAX_RANGE + EPS + MAX_DETOUR_MILES := by
    norm_num [MAX_RANGE, EPS, MAX_DETOUR_MILES]
  have hm2low : (0 : ℚ) ≤ max 0 f1 := le_max_left 0 f1
  have hm2B : max 0 f1 ≤ MAX_RANGE + EPS + MAX_DETOUR_MILES := max_le hBnd0 hf1B
  by_cases h2 : max 0 f1 + EPS < dt
  · rw [if_pos h2] at hok
    injection hok with h
    subst h
    exact nobuy_state_spec st8 s prevMile hpm hJ h1
  rw [if_neg h2] at hok
  push_neg at h2
  cases hla : lookahead s.route_mile (max 0 f1) dt s.price rest with
  | buy g r =>
    rw [hla] at hok
    simp only [buyDecision] at hok
    by_cases h3 : EPS < g
    · rw [if_pos h3] at hok
      injection hok with h
      subst h
      obtain ⟨hgE, hgB⟩ := lookahead_buy_bound rest _ _ _ _ _ _ hla
      have hfl4up : (if 0 < dt then max 0 f1 - dt else max 0 f1) + g * MPG ≤
          MAX_RANGE + EPS + MAX_DETOUR_MILES := by
        by_cases h4 : 0 < dt
        · rw [if_pos h4]
          by_cases h5 : max 0 f1 < dt + EPS
          · rw [if_pos ⟨h4, h5⟩] at hgB; linarith
          · rw [if_neg (fun hc => h5 hc.2)] at hgB; linarith
        · rw [if_neg h4]
          rw [if_neg (fun hc => h4 hc.1)] at hgB
          linarith
      refine ⟨?_, ?_, ?_⟩
      · dsimp only
        by_cases h4 : 0 < dt
        · rw [if_pos h4, if_pos h4]
          by_cases h5 : max 0 f1 < dt + EPS
          · rw [if_pos ⟨h4, h5⟩] at hgB; linarith
          · rw [if_neg (fun hc => h5 hc.2)] at hgB; linarith
        · rw [if_neg h4, if_neg h4]
          rw [if_neg (fun hc => h4 hc.1)] at hgB
          linarith
      · dsimp only
        intro stop hs
        rcases List.mem_append.mp hs with hs | hs
        · exact .inl hs
        · rw [List.mem_singleton] at hs
          subst hs
          exact .inr ⟨g, h3, rfl, rfl, pyRound_nonneg 4 g (by linarith)⟩
      · dsimp only
        intro f hf
        rcases List.mem_append.mp hf with hf | hf
        · exact .inl hf
        · right
          have hfl3low : -EPS ≤ (if 0 < dt then max 0 f1 - dt else max 0 f1) := by
            split_ifs <;> linarith
          have hfl3up : (if 0 < dt then max 0 f1 - dt else max 0 f1) ≤
              MAX_RANGE + EPS + MAX_DETOUR_MILES := by
            split_ifs <;> linarith
          fin_cases hf
          · exact ⟨h1, hf1B⟩
          · exact ⟨hfl3low, hfl3up⟩
          · exact ⟨by linarith, hfl4up⟩
    · rw [if_neg h3] at hok
      injection hok with h
      subst h
      exact nobuy_state_spec st8 s prevMile hpm hJ h1
  | noBuy =>
    rw [hla] at hok
    simp only [buyDecision] at hok
    rw [if_neg (by norm_num [EPS] : ¬ EPS < (0 : ℚ))] at hok
    injection hok with h
    subst h
    exact nobuy_state_spec st8 s prevMile hpm hJ h1
  | exhausted =>
    rw [hla] at hok
    simp only [buyDecision] at hok
    by_cases h4 : 0 < dt
    · rw [if_pos h4] at hok
      by_cases h5 : EPS < MAX_RANGE - dt - max 0 f1
      · rw [if_pos h5] at hok
        dsimp only at hok
        by_cases h6 : EPS < (MAX_RANGE - dt - max 0 f1) / MPG
        · rw [if_pos h6] at hok
          injection hok with h
          subst h
          have hgm : (MAX_RANGE - dt - max 0 f1) / MPG * MPG =
              MAX_RANGE - dt - max 0 f1 := div_mul_cancel₀ _ hMPG
          refine ⟨?_, ?_, ?_⟩
          · dsimp only
            rw [if_pos h4, if_pos h4, hgm]
            linarith
          · dsimp only
            intro stop hs
            rcases List.mem_append.mp hs with hs | hs
            · exact .inl hs
            · rw [List.mem_singleton] at hs
              subst hs
              exact .inr ⟨_, h6, rfl, rfl, pyRound_nonneg 4 _ (by linarith)⟩
          · dsimp only
            intro f hf
            rcases List.mem_append.mp hf with hf | hf
            · exact .inl hf
            · right
              fin_cases hf
              · exact ⟨h1, hf1B⟩
              · rw [if_pos h4]
                exact ⟨by linarith, by linarith⟩
              · rw [if_pos h4, hgm]
                exact ⟨by linarith, by linarith⟩
        · rw [if_neg h6] at hok
          injection hok with h
          subst h
          exact nobuy_state_spec st8 s prevMile hpm hJ h1
      · rw [if_neg h5] at hok
        dsimp only at hok
        rw [if_neg (by norm_num [EPS] : ¬ EPS < (0 : ℚ))] at hok
        injection hok with h
        subst h
        exact nobuy_state_spec st8 s prevMile hpm hJ h1
    · rw [if_neg h4] at hok
      by_cases h5 : EPS < MAX_RANGE - max 0 f1
      · rw [if_pos h5] at hok
        dsimp only at hok
        by_cases h6 : EPS < (MAX_RANGE - max 0 f1) / MPG
        · rw [if_pos h6] at hok
          injection hok with h
          subst h
          have hgm : (MAX_RANGE - max 0 f1) / MPG * MPG =
              MAX_RANGE - max 0 f1 := div_mul_cancel₀ _ hMPG
          refine ⟨?_, ?_, ?_⟩
          · dsimp only
            rw [if_neg h4, if_neg h4, hgm]
            linarith
          · dsimp only
            intro stop hs
            rcases List.mem_append.mp hs with hs | hs
            · exact .inl hs
            · rw [List.mem_singleton] at hs
              subst hs
              exact .inr ⟨_, h6, rfl, rfl, pyRound_nonneg 4 _ (by linarith)⟩
          · dsimp only
            intro f hf
            rcases List.mem_append.mp hf with hf | hf
            · exact .inl hf
            · right
              fin_cases hf
              · exact ⟨h1, hf1B⟩
              · rw [if_neg h4]
                exact ⟨by linarith, hm2B⟩
              · rw [if_neg h4, hgm]
                exact ⟨by linarith, by linarith⟩
        · rw [if_neg h6] at hok
          injection hok with h
          subst h
          exact nobuy_state_spec st8 s prevMile hpm hJ h1
      · rw [if_neg h5] at hok
        dsimp only at hok
        rw [if_neg (by norm_num [EPS] : ¬ EPS < (0 : ℚ))] at hok
        injection hok with h
        subst h
        exact nobuy_state_spec st8 s prevMile hpm hJ h1

/-- The optimizer loop only accumulates well-formed purchases and
in-bounds fuel readings, by induction over the (route-sorted) station
list with `stepStation_spec` supplying each step. -/
lemma optLoop_spec (l : List Station) :
    ∀ (st8 res : OptState) (prevMile : ℚ),
    List.Pairwise mileLe l →
    (∀ s ∈ l, 0 ≤ s.detour_miles ∧ s.detour_miles ≤ MAX_DETOUR_MILES) →
    (∀ s ∈ l, prevMile ≤ s.route_mile) →
    st8.fuel + st8.pos ≤ MAX_RANGE + EPS + prevMile + MAX_DETOUR_MILES →
    optLoop st8 l = .ok res →
    (∀ stop ∈ res.stops, stop ∈ st8.stops ∨ GoodStop stop) ∧
    (∀ f ∈ res.trace, f ∈ st8.trace ∨
      (-EPS ≤ f ∧ f ≤ MAX_RANGE + EPS + MAX_DETOUR_MILES)) := by
  induction l with
  | nil =>
    intro st8 res prevMile _ _ _ _ hok
    simp only [optLoop] at hok
    injection hok with h
    subst h
    exact ⟨fun stop hs => .inl hs, fun f hf => .inl hf⟩
  | cons s rest ih =>
    intro st8 res prevMile hpair hbounds hpm hJ hok
    cases rest with
    | nil =>
      simp only [optLoop] at hok
      injection hok with h
      subst h
      exact ⟨fun stop hs => .inl hs, fun f hf => .inl hf⟩
    | cons r1 rs =>
      simp only [optLoop] at hok
      cases hstep : stepStation st8 s (r1 :: rs) with
      | error e =>
        rw [hstep] at hok
        exact Except.noConfusion hok
      | ok st9 =>
        rw [hstep] at hok
        have hsmem : s ∈ s :: r1 :: rs := List.mem_cons_self s _
        obtain ⟨hJ9, hstops9, htrace9⟩ :=
          stepStation_spec st8 st9 s (r1 :: rs) prevMile
            (hbounds s hsmem).1 (hbounds s hsmem).2 (hpm s hsmem) hJ hstep
        have hpc := List.pairwise_cons.mp hpair
        obtain ⟨hstopsR, htraceR⟩ :=
          ih st9 res s.route_mile hpc.2
            (fun x hx => hbounds x (List.mem_cons_of_mem _ hx))
            (fun x hx => hpc.1 x hx) hJ9 hok
        constructor
        · intro stop hs
          rcases hstopsR stop hs with h | h
          · rcases hstops9 stop h with h' | h'
            · exact .inl h'
            · exact .inr h'
          · exact .inr h
        · intro f hf
          rcases htraceR f hf with h | h
          · rcases htrace9 f h with h' | h'
            · exact .inl h'
            · exact .inr h'
          · exact .inr h

/-- C2, amended: for every total distance and every projected-station
list — detours between 0 and `MAX_DETOUR_MILES` (10), route miles between
0 and the total — on which the optimizer returns normally, every recorded
`PurchaseEvent` arises from an unrounded purchase strictly above the 1e-6
gallon threshold (`GoodStop`: recorded `gallons` is its 4-decimal
rounding, hence possibly 0, and `cost` the 2-decimal rounding of unrounded
gallons times price), and the simulated fuel level stays within
`[-EPS, MAX_RANGE + EPS + MAX_DETOUR_MILES]` at every point of the run.
The claim's strict bounds (`gallons > 0` on the recorded field, fuel never
above `MAX_RANGE`) are refuted by `C2_counterexample`. -/
theorem C2_optimizer_invariant (total : ℚ) (stations : List Station) (res : OptResult)
    (hdet : ∀ s ∈ stations, 0 ≤ s.detour_miles ∧ s.detour_miles ≤ MAX_DETOUR_MILES)
    (hmile : ∀ s ∈ stations, 0 ≤ s.route_mile ∧ s.route_mile ≤ total)
    (htotal : 0 ≤ total)
    (hok : optimize_fuel_stops_with_detours total stations = .ok res) :
    (∀ stop ∈ res.stops, GoodStop stop) ∧
    (∀ f ∈ res.trace, -EPS ≤ f ∧ f ≤ MAX_RANGE + EPS + MAX_DETOUR_MILES) := by
  simp only [optimize_fuel_stops_with_detours] at hok
  cases hloop : optLoop ⟨MAX_RANGE, 0, 0, [], [MAX_RANGE]⟩
      (List.insertionSort mileLe stations ++
        [⟨total, 0, "DESTINATION", 0, true⟩]) with
  | error e =>
    rw [hloop] at hok
    exact Except.noConfusion hok
  | ok st8 =>
    rw [hloop] at hok
    injection hok with h
    subst h
    have hmem : ∀ x ∈ List.insertionSort mileLe stations, x ∈ stations :=
      fun x hx => (List.perm_insertionSort mileLe stations).mem_iff.mp hx
    have hpair : List.Pairwise mileLe
        (List.insertionSort mileLe stations ++ [⟨total, 0, "DESTINATION", 0, true⟩]) := by
      apply List.pairwise_append.mpr
      refine ⟨List.sorted_insertionSort mileLe stations,
        List.pairwise_singleton _ _, ?_⟩
      intro a ha b hb
      rw [List.mem_singleton] at hb
      subst hb
      exact (hmile a (hmem a ha)).2
    have hbounds : ∀ s ∈ List.insertionSort mileLe stations ++
        [(⟨total, 0, "DESTINATION", 0, true⟩ : Station)],
        0 ≤ s.detour_miles ∧ s.detour_miles ≤ MAX_DETOUR_MILES := by
      intro s hs
      rcases List.mem_append.mp hs with hs | hs
      · exact hdet s (hmem s hs)
      · rw [List.mem_singleton] at hs
        subst hs
        norm_num [MAX_DETOUR_MILES]
    have hposmile : ∀ s ∈ List.insertionSort mileLe stations ++
        [(⟨total, 0, "DESTINATION", 0, true⟩ : Station)], (0 : ℚ) ≤ s.route_mile := by
      intro s hs
      rcases List.mem_append.mp hs with hs | hs
      · exact (hmile s (hmem s hs)).1
      · rw [List.mem_singleton] at hs
        subst hs
        exact htotal
    have hJ : (MAX_RANGE : ℚ) + 0 ≤ MAX_RANGE + EPS + 0 + MAX_DETOUR_MILES := by
      norm_num [MAX_RANGE, EPS, MAX_DETOUR_MILES]
    obtain ⟨h1, h2⟩ := optLoop_spec _ _ st8 0 hpair hbounds hposmile hJ hloop
    constructor
    · intro stop hs
      rcases h1 stop hs with h | h
      · exact absurd h (List.not_mem_nil stop)
      · exact h
    · intro f hf
      rcases h2 f hf with h | h
      · rw [List.mem_singleton] at h
        subst h
        norm_num [MAX_RANGE, EPS, MAX_DETOUR_MILES]
      · exact h

/-- C2 witness: the amended invariant applied to a concrete run (total
distance 900, on-route stations at miles 450 and 500) whose single
purchase buys 40 gallons at station W2. -/
theorem C2_witness :
    (∀ stop ∈ [(⟨500, 1, "W2", true, 40, 40, 0,
        "to reach cheaper station at DESTINATION"⟩ : Stop)], GoodStop stop) ∧
    (∀ f ∈ [(500 : ℚ), 50, 0, 0, 400],
      -EPS ≤ f ∧ f ≤ MAX_RANGE + EPS + MAX_DETOUR_MILES) :=
  C2_optimizer_invariant 900 [⟨450, 2, "W1", 0, true⟩, ⟨500, 1, "W2", 0, true⟩]
    ⟨[⟨500, 1, "W2", true, 40, 40, 0, "to reach cheaper station at DESTINATION"⟩],
     40, [500, 50, 0, 0, 400]⟩
    (by intro s hs; fin_cases hs <;> norm_num [MAX_DETOUR_MILES])
    (by intro s hs; fin_cases hs <;> norm_num)
    (by norm_num)
    (by norm_num [optimize_fuel_stops_with_detours, optLoop, stepStation, buyDecision,
      lookahead, List.insertionSort, List.orderedInsert, mileLe, pyRound, roundHalfEven,
      max_def, MAX_RANGE, MPG, EPS]
        rfl)

/-- C5, amended: whenever the lookahead scan runs through all subsequent
stations (including the virtual destination) to exhaustion — i.e. the
`for` loop reaches its `else` clause without breaking on the range bound
or on a cheaper station — the purchase at the current station tops the
(post-arrival, pre-detour) fuel level up to exactly `MAX_RANGE` when the
station is on-route, and to `MAX_RANGE - detour_needed` when it requires
a detour, with buy reason "fill tank (no cheaper stations ahead)"; no
purchase is recorded when the required amount is at most the `EPS`
threshold.  (If the scan instead stops early at a stop beyond the range
bound, no fill purchase is made at all — see `C5_counterexample`.) -/
theorem C5_fill_tank_amended (st8 : OptState) (s : Station) (rest : List Station)
    (fuel2 detour target : ℚ)
    (hfuel2 : fuel2 = max 0 (st8.fuel - (s.route_mile - st8.pos)))
    (hdetour : detour = if s.on_route then (0 : ℚ) else s.detour_miles)
    (htarget : target = if 0 < detour then MAX_RANGE - detour else MAX_RANGE)
    (harrive : -EPS ≤ st8.fuel - (s.route_mile - st8.pos))
    (hdet : detour ≤ fuel2 + EPS)
    (hla : lookahead s.route_mile fuel2 detour s.price rest = .exhausted) :
    (EPS < (target - fuel2) / MPG →
      stepStation st8 s rest = .ok
        { fuel := (if 0 < detour then fuel2 - detour else fuel2) +
            (target - fuel2) / MPG * MPG,
          pos := if 0 < detour then s.route_mile + detour else s.route_mile,
          total_cost := st8.total_cost + (target - fuel2) / MPG * s.price,
          stops := st8.stops ++
            [{ route_mile := s.route_mile, price := s.price, name := s.name,
               on_route := s.on_route,
               gallons := pyRound 4 ((target - fuel2) / MPG),
               cost := pyRound 2 ((target - fuel2) / MPG * s.price),
               detour_miles := pyRound 2 detour,
               buy_reason := "fill tank (no cheaper stations ahead)" }],
          trace := st8.trace ++ [st8.fuel - (s.route_mile - st8.pos),
            if 0 < detour then fuel2 - detour else fuel2,
            (if 0 < detour then fuel2 - detour else fuel2) +
              (target - fuel2) / MPG * MPG] } ∧
      fuel2 + (target - fuel2) / MPG * MPG = target) ∧
    ((target - fuel2) / MPG ≤ EPS →
      stepStation st8 s rest = .ok
        { st8 with fuel := fuel2, pos := s.route_mile,
                   trace := st8.trace ++
                     [st8.fuel - (s.route_mile - st8.pos)] }) := by
  have hE : (0 : ℚ) < EPS := by norm_num [EPS]
  have hMpos : (0 : ℚ) < MPG := by norm_num [MPG]
  have hMne : (MPG : ℚ) ≠ 0 := ne_of_gt hMpos
  have hEM : EPS < EPS * MPG := by norm_num [EPS, MPG]
  simp only [stepStation]
  rw [← hfuel2, ← hdetour, if_neg (not_lt.mpr harrive), if_neg (not_lt.mpr hdet), hla]
  simp only [buyDecision]
  rw [← htarget]
  constructor
  · intro h6
    have h5 : EPS < target - fuel2 := by
      have := (lt_div_iff₀ hMpos).mp h6
      linarith
    rw [if_pos h5]
    dsimp only
    rw [if_pos h6]
    refine ⟨rfl, ?_⟩
    rw [div_mul_cancel₀ _ hMne]
    ring
  · intro h6
    by_cases h5 : EPS < target - fuel2
    · rw [if_pos h5]
      dsimp only
      rw [if_neg (not_lt.mpr h6)]
    · rw [if_neg h5]
      dsimp only
      rw [if_neg (by norm_num [EPS] : ¬ EPS < (0 : ℚ))]

/-- C5 witness: a single on-route station at mile 200 with an empty
lookahead list (the scan trivially exhausts): the optimizer buys 20
gallons there, topping the 300 remaining miles of range up to exactly
`MAX_RANGE` = 500, with the fill-tank buy reason. -/
theorem C5_witness :
    stepStation ⟨500, 0, 0, [], [500]⟩ ⟨200, 3.5, "A", 0, true⟩ [] = .ok
      ⟨500, 200, 70,
       [⟨200, 3.5, "A", true, 20, 70, 0, "fill tank (no cheaper stations ahead)"⟩],
       [500, 300, 300, 500]⟩ ∧
    (300 : ℚ) + (500 - 300) / MPG * MPG = 500 := by
  have h := (C5_fill_tank_amended ⟨500, 0, 0, [], [500]⟩ ⟨200, 3.5, "A", 0, true⟩ []
      300 0 500
      (by norm_num [max_def]) (by norm_num) (by norm_num [MAX_RANGE])
      (by norm_num [EPS]) (by norm_num [EPS]) rfl).1
      (by norm_num [EPS, MPG])
  constructor
  · rw [h.1]
    norm_num [pyRound, roundHalfEven, MPG]
  · exact h.2

/-- A route waypoint: a (lat, lon) pair. -/
abbrev Coord := ℚ × ℚ

/-- The accumulation loop of `cumulative_distances` (`utils.py` lines
22-23): each step appends the running total plus the pairwise distance
between consecutive waypoints. -/
def cumulativeGo (hav : Coord → Coord → ℚ) (prev : ℚ) (c : Coord) :
    List Coord → List ℚ
  | [] => []
  | d :: ds => (prev + hav c d) :: cumulativeGo hav (prev + hav c d) d ds

/-- Shallow embedding of `cumulative_distances` (`utils.py` lines 20-24).
The pairwise great-circle distance `haversine_miles` evaluates
transcendental `math` functions, so it is passed as the parameter `hav`;
the list structure — `dists = [0.0]` followed by one append per
consecutive pair — is the source's.  Note the source performs no length
validation: any input, including the empty and singleton lists, falls
through to the same code path. -/
def cumulative_distances (hav : Coord → Coord → ℚ) :
    List Coord → List ℚ
  | [] => [0]
  | c :: cs => 0 :: cumulativeGo hav 0 c cs

lemma cumulativeGo_length (hav : Coord → Coord → ℚ) (prev : ℚ) (c : Coord)
    (ds : List Coord) : (cumulativeGo hav prev c ds).length = ds.length := by
  induction ds generalizing prev c with
  | nil => rfl
  | cons d ds ih => simp [cumulativeGo, ih]

/-- C3 counterexample: on degenerate inputs (no coordinates, or a single
coordinate) `cumulative_distances` does not fail — it returns the trivial
profile `[0.0]`.  There is no `InvalidRouteGeometry` signal anywhere in
the code path: the loop `for i in range(1, len(coords))` is simply empty.
(The distance parameter is irrelevant here because no pair is ever
formed; `fun _ _ => 0` is used as a placeholder.) -/
theorem C3_counterexample :
    cumulative_distances (fun _ _ => 0) ([] : List Coord) = [0] ∧
    cumulative_distances (fun _ _ => 0) [((0 : ℚ), (0 : ℚ))] = [0] :=
  ⟨rfl, rfl⟩

/-- C3, amended: `cumulative_distances` returns normally on every input —
it is a total function — producing a profile that starts at 0 and has
length `max 1 n` for an `n`-point input: the full profile for `n ≥ 2`,
and the degenerate `[0.0]` (rather than an error) for `n < 2`. -/
theorem C3_profile_total (hav : Coord → Coord → ℚ) (coords : List Coord) :
    (cumulative_distances hav coords).head? = some 0 ∧
    (cumulative_distances hav coords).length = max 1 coords.length := by
  cases coords with
  | nil => exact ⟨rfl, rfl⟩
  | cons c cs =>
    refine ⟨rfl, ?_⟩
    simp [cumulative_distances, cumulativeGo_length]

/-- A raw station row as read from the CSV by pandas: `Lat`/`Lon` after
`pd.to_numeric(..., errors="coerce")` (so `none` models `NaN` from an
unparseable field), the retail price, and the row label `name`. -/
structure RawStation where
  name : String
  lat : Option ℚ
  lon : Option ℚ
  retail_price : ℚ
deriving DecidableEq, Repr

/-- A station row that survived `dropna`. -/
structure ParsedStation where
  name : String
  lat : ℚ
  lon : ℚ
  price : ℚ
deriving DecidableEq, Repr

/-- A record of the list produced by `project_stations_with_detours`
(`planner.py` lines 112-123). -/
structure ProjStation where
  route_mile : ℚ
  price : ℚ
  name : String
  lat : ℚ
  lon : ℚ
  detour_miles : ℚ
  distance_to_route : ℚ
  on_route : Bool
deriving DecidableEq, Repr

/-- Tail-recursive scan mirroring `np.argmin`: index of the first
occurrence of the minimum (strict `<` keeps the earliest index). -/
def argminGo : List ℚ → ℕ → ℕ → ℚ → ℕ
  | [], _, best, _ => best
  | x :: xs, i, best, bv =>
    if x < bv then argminGo xs (i + 1) i x else argminGo xs (i + 1) best bv

/-- Index of the first minimum of a distance list (`np.argmin`). -/
def argminIdx : List ℚ → ℕ
  | [] => 0
  | x :: xs => argminGo xs 1 0 x

/-- Sorting relation for `result_df.sort_values("route_mile")`. -/
def projMileLe (a b : ProjStation) : Prop := a.route_mile ≤ b.route_mile

instance : DecidableRel projMileLe := fun a b =>
  inferInstanceAs (Decidable (a.route_mile ≤ b.route_mile))

instance : IsTotal ProjStation projMileLe :=
  ⟨fun a b => le_total a.route_mile b.route_mile⟩

instance : IsTrans ProjStation projMileLe := ⟨fun _ _ _ h h' => le_trans h h'⟩

/-- Shallow embedding of `project_stations_with_detours` (`planner.py`
lines 47-133).  The vectorised station-to-waypoint great-circle distance
(the arcsin haversine of lines 96-105) is the parameter `sdist`, and the
haversine used inside `cumulative_distances` is `hav`.  The batching of
lines 85-110 only partitions the station list and concatenates the
per-batch results in order, so it is modelled by a single in-order pass.
On an empty route the source raises inside `numpy` (`min` of an empty
array); no station record can result, modelled by the empty output. -/
def project_stations_with_detours (sdist : Coord → Coord → ℚ)
    (hav : Coord → Coord → ℚ) (route_coords : List Coord)
    (stations_df : List RawStation) (corridor_miles : ℚ) : List ProjStation :=
  match route_coords with
  | [] => []
  | r0 :: rs =>
    let route := r0 :: rs
    let cumd := cumulative_distances hav route
    let stations : List ParsedStation := stations_df.filterMap fun srow =>
      match srow.lat, srow.lon with
      | some la, some lo => some ⟨srow.name, la, lo, srow.retail_price⟩
      | _, _ => none
    if stations.isEmpty then [] else
    let min_lat := (route.map Prod.fst).foldl min r0.1
    let max_lat := (route.map Prod.fst).foldl max r0.1
    let min_lon := (route.map Prod.snd).foldl min r0.2
    let max_lon := (route.map Prod.snd).foldl max r0.2
    let degree_buffer := corridor_miles / 69
    let boxed := stations.filter fun st =>
      decide (min_lat - degree_buffer ≤ st.lat) &&
      decide (st.lat ≤ max_lat + degree_buffer) &&
      decide (min_lon - degree_buffer ≤ st.lon) &&
      decide (st.lon ≤ max_lon + degree_buffer)
    if boxed.isEmpty then [] else
    let results := boxed.map fun st =>
      let distances := route.map fun rc => sdist (st.lat, st.lon) rc
      let idx := argminIdx distances
      let md := distances.getD idx 0
      ({ route_mile := cumd.getD idx 0, price := st.price, name := st.name,
         lat := st.lat, lon := st.lon, detour_miles := 2 * md,
         distance_to_route := md,
         on_route := decide (md < 1 / 10) } : ProjStation)
    let kept := results.filter fun p => decide (p.detour_miles ≤ MAX_DETOUR_MILES)
    if kept.isEmpty then [] else
    List.insertionSort projMileLe kept

/-- C7: no station whose computed `detour_miles` exceeds
`MAX_DETOUR_MILES` (10) ever appears in the projector's output — the
filter `result_df[result_df["detour_miles"] <= MAX_DETOUR_MILES]` runs
unconditionally before the final sort, for every route, station dataset,
corridor width and distance function, regardless of price. -/
theorem C7_projector_detour_bound (sdist hav : Coord → Coord → ℚ)
    (route_coords : List Coord) (stations_df : List RawStation)
    (corridor_miles : ℚ) (p : ProjStation)
    (hp : p ∈ project_stations_with_detours sdist hav route_coords
        stations_df corridor_miles) :
    p.detour_miles ≤ MAX_DETOUR_MILES := by
  cases route_coords with
  | nil =>
    simp only [project_stations_with_detours] at hp
    exact absurd hp (List.not_mem_nil p)
  | cons r0 rs =>
    simp only [project_stations_with_detours] at hp
    split_ifs at hp
    all_goals try exact absurd hp (List.not_mem_nil p)
    have hp2 := (List.perm_insertionSort projMileLe _).mem_iff.mp hp
    have hp3 := List.mem_filter.mp hp2
    exact of_decide_eq_true hp3.2

/-- C7 witness: a concrete projection run (constant station distance 2,
hence detour 4) produces one record, and the theorem bounds its detour. -/
theorem C7_witness :
    ((⟨0, 3, "S", 0, 0, 4, 2, false⟩ : ProjStation) ∈
      project_stations_with_detours (fun _ _ => 2) (fun _ _ => 1)
        [((0 : ℚ), (0 : ℚ)), (1, 1)] [⟨"S", some 0, some 0, 3⟩] 50) ∧
    (⟨0, 3, "S", 0, 0, 4, 2, false⟩ : ProjStation).detour_miles ≤ MAX_DETOUR_MILES := by
  have hm : (⟨0, 3, "S", 0, 0, 4, 2, false⟩ : ProjStation) ∈
      project_stations_with_detours (fun _ _ => 2) (fun _ _ => 1)
        [((0 : ℚ), (0 : ℚ)), (1, 1)] [⟨"S", some 0, some 0, 3⟩] 50 := by
    norm_num [project_stations_with_detours, cumulative_distances, cumulativeGo,
      argminIdx, argminGo, List.insertionSort, List.orderedInsert, projMileLe,
      MAX_DETOUR_MILES, List.filterMap, List.foldl, List.getD]
  exact ⟨hm, C7_projector_detour_bound _ _ _ _ _ _ hm⟩

/-- Hex digit used by the `\uXXXX` escapes of `json.dumps`. -/
def hexDigit (n : ℕ) : Char :=
  if n < 10 then Char.ofNat (48 + n) else Char.ofNat (87 + n)

/-- Four-digit lowercase hex rendering of a code unit. -/
def hex4 (n : ℕ) : List Char :=
  [hexDigit (n / 4096 % 16), hexDigit (n / 256 % 16),
   hexDigit (n / 16 % 16), hexDigit (n % 16)]

/-- Character escaping of `json.dumps` with its default
`ensure_ascii=True`: quote and backslash get two-character escapes, the
five named control characters their short forms, other controls and all
non-ASCII characters `\uXXXX` forms (surrogate pairs above the BMP);
everything in the printable ASCII range is kept verbatim. -/
def jsonEscChar (c : Char) : List Char :=
  if c = '"' then ['\\', '"']
  else if c = '\\' then ['\\', '\\']
  else if c = '\n' then ['\\', 'n']
  else if c = '\r' then ['\\', 'r']
  else if c = '\t' then ['\\', 't']
  else if c = '\x08' then ['\\', 'b']
  else if c = '\x0c' then ['\\', 'f']
  else if c.toNat < 32 then '\\' :: 'u' :: hex4 c.toNat
  else if c.toNat ≤ 126 then [c]
  else if c.toNat ≤ 65535 then '\\' :: 'u' :: hex4 c.toNat
  else ['\\', 'u'] ++ hex4 (55296 + (c.toNat - 65536) / 1024) ++
       ['\\', 'u'] ++ hex4 (56320 + (c.toNat - 65536) % 1024)

/-- Character-by-character escaping of a string body. -/
def escList : List Char → List Char
  | [] => []
  | c :: cs => jsonEscChar c ++ escList cs

/-- The `json.dumps` rendering of a string value (without the enclosing
quotes). -/
def jsonEsc (s : String) : String := ⟨escList s.data⟩

/-- Characters that `json.dumps` copies verbatim: printable ASCII other
than quote and backslash.  Both fingerprints the repository produces
("no_stations" and md5 hexdigests) consist solely of such characters. -/
def jsonSafe (c : Char) : Prop :=
  c ≠ '"' ∧ c ≠ '\\' ∧ 32 ≤ c.toNat ∧ c.toNat ≤ 126

instance : DecidablePred jsonSafe := fun c =>
  inferInstanceAs (Decidable (c ≠ '"' ∧ c ≠ '\\' ∧ 32 ≤ c.toNat ∧ c.toNat ≤ 126))

/-- The serialized `key_string` of `RouteCacheService._generate_key`
(`processor.py` lines 79-85): `json.dumps(key_data, sort_keys=True)` of
the dict with keys `finish`, `start`, `stations_hash`, `version` (in
sorted order, with the version literal "1"). -/
def keyString (start finish shash : String) : String :=
  "\x7b\"finish\": \"" ++ jsonEsc finish ++ "\", \"start\": \"" ++ jsonEsc start ++
    "\", \"stations_hash\": \"" ++ jsonEsc shash ++ "\", \"version\": \"1\"\x7d"

/-- `RouteCacheService._generate_key` (`processor.py` lines 71-86): the
`route:` prefix plus the digest of the serialized key data.  The md5
hexdigest of `hashlib` is external code and is passed as `digest`. -/
def generate_key (digest : String → String) (start finish shash : String) : String :=
  "route:" ++ digest (keyString start finish shash)

/-- The `RoutePlan` result dict assembled by `RouteProcessorService.execute`
(`processor.py` lines 170-175). -/
structure RoutePlan where
  distance : ℚ
  stops : List Stop
  total_fuel_cost : ℚ
  map_url : String
deriving DecidableEq, Repr

/-- The backing key-value store of the Django cache, modelled as a map
from keys to stored plans (the TTL is not modelled: no claim concerns
expiry). -/
abbrev CacheStore := String → Option RoutePlan

/-- `RouteCacheService.get` (`processor.py` lines 88-101). -/
def cacheGet (digest : String → String) (store : CacheStore)
    (start finish shash : String) : Option RoutePlan :=
  store (generate_key digest start finish shash)

/-- `RouteCacheService.set` (`processor.py` lines 103-118): overwrites the
value under the derived key. -/
def cacheSet (digest : String → String) (store : CacheStore)
    (start finish shash : String) (data : RoutePlan) : CacheStore :=
  fun k => if k = generate_key digest start finish shash then some data else store k

lemma escList_of_safe (l : List Char) (h : ∀ c ∈ l, jsonSafe c) :
    escList l = l := by
  induction l with
  | nil => rfl
  | cons c cs ih =>
    obtain ⟨h1, h2, h3, h4⟩ := h c (List.mem_cons_self c cs)
    have hn : c ≠ '\n' := by rintro rfl; exact absurd h3 (by decide)
    have hr : c ≠ '\r' := by rintro rfl; exact absurd h3 (by decide)
    have ht : c ≠ '\t' := by rintro rfl; exact absurd h3 (by decide)
    have hb : c ≠ '\x08' := by rintro rfl; exact absurd h3 (by decide)
    have hf : c ≠ '\x0c' := by rintro rfl; exact absurd h3 (by decide)
    rw [escList, jsonEscChar, if_neg h1, if_neg h2, if_neg hn, if_neg hr,
      if_neg ht, if_neg hb, if_neg hf, if_neg (not_lt.mpr h3), if_pos h4,
      ih (fun c hc => h c (List.mem_cons_of_mem _ hc)), List.singleton_append]

lemma jsonEsc_of_safe (s : String) (h : ∀ c ∈ s.data, jsonSafe c) :
    jsonEsc s = s := by
  unfold jsonEsc
  rw [escList_of_safe s.data h]

/-- Two distinct safe fingerprints serialize to distinct key payloads:
the `stations_hash` field is copied verbatim between fixed delimiters. -/
lemma keyString_inj_hash (start finish h1 h2 : String)
    (hs1 : ∀ c ∈ h1.data, jsonSafe c) (hs2 : ∀ c ∈ h2.data, jsonSafe c)
    (hne : h1 ≠ h2) :
    keyString start finish h1 ≠ keyString start finish h2 := by
  unfold keyString
  rw [jsonEsc_of_safe _ hs1, jsonEsc_of_safe _ hs2]
  intro he
  apply hne
  have hd := congrArg String.data he
  simp only [String.data_append] at hd
  exact String.ext (List.append_cancel_left (List.append_cancel_right hd))

/-- C8: writing a plan to the cache under the key derived from
(start, finish, stations fingerprint) and reading back with the same
three arguments returns the same plan (for any digest function — both
calls derive the same key), and for identical endpoints two distinct
station-dataset fingerprints (drawn from the characters `json.dumps`
copies verbatim, as all fingerprints in this system are) yield distinct
serialized key payloads and — for a collision-free digest — distinct
derived cache keys. -/
theorem C8_cache_roundtrip_and_keys (digest : String → String)
    (store : CacheStore) (start finish h1 h2 : String) (plan : RoutePlan)
    (hs1 : ∀ c ∈ h1.data, jsonSafe c) (hs2 : ∀ c ∈ h2.data, jsonSafe c)
    (hne : h1 ≠ h2) (hinj : Function.Injective digest) :
    cacheGet digest (cacheSet digest store start finish h1 plan)
      start finish h1 = some plan ∧
    keyString start finish h1 ≠ keyString start finish h2 ∧
    generate_key digest start finish h1 ≠ generate_key digest start finish h2 := by
  refine ⟨?_, keyString_inj_hash start finish h1 h2 hs1 hs2 hne, ?_⟩
  · unfold cacheGet cacheSet
    rw [if_pos rfl]
  · intro he
    apply keyString_inj_hash start finish h1 h2 hs1 hs2 hne
    apply hinj
    have hd := congrArg String.data he
    simp only [String.data_append] at hd
    exact String.ext (List.append_cancel_left hd)

/-- C8 witness: the identity digest (injective), an empty store, the
unloaded-state fingerprint "no_stations" versus a distinct fingerprint. -/
theorem C8_witness :
    cacheGet id (cacheSet id (fun _ => none) "1.0,2.0" "3.0,4.0" "no_stations"
        ⟨0, [], 0, ""⟩) "1.0,2.0" "3.0,4.0" "no_stations" = some ⟨0, [], 0, ""⟩ ∧
    keyString "1.0,2.0" "3.0,4.0" "no_stations" ≠
      keyString "1.0,2.0" "3.0,4.0" "0f343b0931126a20f133d67c2b018a3b" ∧
    generate_key id "1.0,2.0" "3.0,4.0" "no_stations" ≠
      generate_key id "1.0,2.0" "3.0,4.0" "0f343b0931126a20f133d67c2b018a3b" :=
  C8_cache_roundtrip_and_keys id (fun _ => none) "1.0,2.0" "3.0,4.0"
    "no_stations" "0f343b0931126a20f133d67c2b018a3b" ⟨0, [], 0, ""⟩
    (by decide) (by decide) (by decide) Function.injective_id

/-- A parsed coordinate (`enums.py` `Coordinate`): the `data` string used
as cache-key material is `f"{lat},{lon}"`; Python float formatting is
external, so the renderer is a parameter where needed. -/
structure Coordinate where
  lat : ℚ
  lon : ℚ
deriving DecidableEq, Repr

/-- The `data` attribute of `Coordinate` (`enums.py` line 14). -/
def Coordinate.dataStr (numToStr : ℚ → String) (c : Coordinate) : String :=
  numToStr c.lat ++ "," ++ numToStr c.lon

/-- The station dataset snapshot (the pandas DataFrame contents). -/
abbrev StationsData := List RawStation

/-- `FuelStationRepository.get_stations` (`processor.py` lines 43-54):
state-passing form of the lazily-loaded singleton.  `fileData` stands for
the CSV contents; on first access it is loaded and cached, afterwards the
cached snapshot is returned. -/
def get_stations (fileData : StationsData) :
    Option StationsData → StationsData × Option StationsData
  | none => (fileData, some fileData)
  | some df => (df, some df)

/-- `FuelStationRepository.get_stations_hash` (`processor.py` lines
56-62): the md5-of-pandas-hash fingerprint (external, parameter `md5hex`)
when a snapshot is loaded, the sentinel string "no_stations" before any
load.  It reads `_stations_df` only — it never triggers a load. -/
def get_stations_hash (md5hex : StationsData → String) :
    Option StationsData → String
  | some df => md5hex df
  | none => "no_stations"

/-- The optimizer consumes the projector's records through the dict keys
`route_mile`, `price`, `name`, `detour_miles`, `on_route`. -/
def toOptimizerStation (p : ProjStation) : Station :=
  ⟨p.route_mile, p.price, p.name, p.detour_miles, p.on_route⟩

/-- Audit record of one `RouteProcessorService.execute` call: the result
plus which fingerprint and cache keys the call used, the repository state
it left behind, and the snapshot used for planning (`none` on a cache
hit, where no planning happens). -/
structure ExecOutcome where
  result : RoutePlan
  repo_state : Option StationsData
  hash_used : String
  get_key : String
  set_key : Option String
  planning_data : Option StationsData
  cache_hit : Bool

/-- Shallow embedding of `RouteProcessorService.execute` (`processor.py`
lines 134-187) with the external collaborators as parameters: `digest`
(md5 in `_generate_key`), `md5hex` (station fingerprint), `getRoute`
(OSRM route fetch plus `extract_coords`), `sdist`/`hav` (great-circle
distances), `mapRender` (`generate_map_with_detours`), `numToStr` (Python
float formatting).  The repository singleton state and the cache store
are threaded explicitly.  The `try`/`except` wrapper turns any optimizer
failure into the `RoutePlanningError` message. -/
def execute (digest : String → String) (md5hex : StationsData → String)
    (fileData : StationsData) (getRoute : Coordinate → Coordinate → List Coord)
    (sdist hav : Coord → Coord → ℚ)
    (mapRender : List Coord → List Stop → String → String)
    (numToStr : ℚ → String) (repoState : Option StationsData)
    (store : CacheStore) (start finish : Coordinate) :
    Except String (ExecOutcome × CacheStore) :=
  let stations_hash := get_stations_hash md5hex repoState
  let sd := start.dataStr numToStr
  let fd := finish.dataStr numToStr
  let gk := generate_key digest sd fd stations_hash
  match store gk with
  | some cached =>
    .ok (⟨cached, repoState, stations_hash, gk, none, none, true⟩, store)
  | none =>
    let coords := getRoute start finish
    let loaded := get_stations fileData repoState
    let projected := project_stations_with_detours sdist hav coords loaded.1 50
    let total_distance := (cumulative_distances hav coords).getLastD 0
    match optimize_fuel_stops_with_detours total_distance
        (projected.map toOptimizerStation) with
    | .error e => .error ("Failed to plan route: " ++ e)
    | .ok opt =>
      let location_key := numToStr start.lon ++ "_" ++ numToStr start.lat ++
        "_" ++ numToStr finish.lon ++ "_" ++ numToStr finish.lat
      let map_url := mapRender coords opt.stops location_key
      let result : RoutePlan :=
        ⟨pyRound 1 total_distance, opt.stops, pyRound 2 opt.total_cost, map_url⟩
      let store2 := cacheSet digest store sd fd stations_hash result
      .ok (⟨result, loaded.2, stations_hash, gk, some gk, some loaded.1, false⟩, store2)

/-- Constructor check for `Except`, used to state that a run succeeded. -/
def isOkB {α : Type} : Except String α → Bool
  | .ok _ => true
  | .error _ => false

/-- C10: on a fresh process (repository state unloaded) with no cached
entry, `execute` computes the station fingerprint before the snapshot is
loaded: `get_stations_hash` returns the sentinel "no_stations" without
triggering a load, both the cache lookup key and the cache write key are
derived from that sentinel, while planning uses the dataset loaded later
in the same call — whose own fingerprint (a 32-character md5 hexdigest)
is never "no_stations" (an 11-character string). -/
theorem C10_fresh_hash_sentinel (digest : String → String)
    (md5hex : StationsData → String) (fileData : StationsData)
    (getRoute : Coordinate → Coordinate → List Coord)
    (sdist hav : Coord → Coord → ℚ)
    (mapRender : List Coord → List Stop → String → String)
    (numToStr : ℚ → String) (store : CacheStore) (start finish : Coordinate)
    (hmiss : store (generate_key digest (start.dataStr numToStr)
        (finish.dataStr numToStr) "no_stations") = none)
    (hlen : (md5hex fileData).length = 32)
    (hrun : isOkB (execute digest md5hex fileData getRoute sdist hav mapRender
        numToStr none store start finish) = true) :
    ∃ out store2,
      execute digest md5hex fileData getRoute sdist hav mapRender numToStr
        none store start finish = .ok (out, store2) ∧
      out.hash_used = "no_stations" ∧
      out.get_key = generate_key digest (start.dataStr numToStr)
        (finish.dataStr numToStr) "no_stations" ∧
      out.set_key = some out.get_key ∧
      out.repo_state = some fileData ∧
      out.planning_data = some fileData ∧
      get_stations_hash md5hex out.repo_state = md5hex fileData ∧
      get_stations_hash md5hex out.repo_state ≠ "no_stations" := by
  simp only [execute, get_stations_hash, get_stations] at hrun ⊢
  rw [hmiss] at hrun ⊢
  dsimp only at hrun ⊢
  cases hopt : optimize_fuel_stops_with_detours
      ((cumulative_distances hav (getRoute start finish)).getLastD 0)
      ((project_stations_with_detours sdist hav (getRoute start finish)
        fileData 50).map toOptimizerStation) with
  | error e =>
    rw [hopt] at hrun
    simp [isOkB] at hrun
  | ok opt =>
    dsimp only
    refine ⟨_, _, rfl, rfl, rfl, rfl, rfl, rfl, rfl, ?_⟩
    intro he
    have : (32 : ℕ) = ("no_stations" : String).length := by rw [← he, ← hlen]
    exact absurd this (by decide)

/-- C10 witness: a concrete fresh run — identity digest, constant
32-character fingerprint, empty dataset, two-point route — hits the miss
path, derives both keys from "no_stations", and loads the data only for
planning. -/
theorem C10_witness :
    ∃ out store2,
      execute id (fun _ => "0123456789abcdef0123456789abcdef") []
        (fun _ _ => [((0 : ℚ), (0 : ℚ)), (1, 1)]) (fun _ _ => 1) (fun _ _ => 1)
        (fun _ _ _ => "map") (fun _ => "0.0") none (fun _ => none)
        ⟨0, 0⟩ ⟨1, 1⟩ = .ok (out, store2) ∧
      out.hash_used = "no_stations" ∧
      out.get_key = generate_key id ((⟨0, 0⟩ : Coordinate).dataStr (fun _ => "0.0"))
        ((⟨1, 1⟩ : Coordinate).dataStr (fun _ => "0.0")) "no_stations" ∧
      out.set_key = some out.get_key ∧
      out.repo_state = some [] ∧
      out.planning_data = some [] ∧
      get_stations_hash (fun _ => "0123456789abcdef0123456789abcdef") out.repo_state =
        "0123456789abcdef0123456789abcdef" ∧
      get_stations_hash (fun _ => "0123456789abcdef0123456789abcdef") out.repo_state ≠
        "no_stations" :=
  C10_fresh_hash_sentinel id (fun _ => "0123456789abcdef0123456789abcdef") []
    (fun _ _ => [((0 : ℚ), (0 : ℚ)), (1, 1)]) (fun _ _ => 1) (fun _ _ => 1)
    (fun _ _ _ => "map") (fun _ => "0.0") (fun _ => none) ⟨0, 0⟩ ⟨1, 1⟩
    rfl rfl rfl

end RoutePlanner
